import Mathlib

/-
  Verification of the voice-to-3D-model pipeline (mit-stairway-hackers).

  Shallow embedding of:
    - src/testing_modelGenerator/modelGenerator.ts  (sanitize, generate, publish)
    - src/SpeechToText/index.ts                     (recording state machine, routes)
    - src/1_NeedleBackend-main/src/app.ts           (same state machine + notifier)
    - src/SpeechToText/conversion_working.ts        (timeout-driven variant)

  External collaborators (mic device, ffmpeg, sox, lame, OpenAI, Stability,
  GitHub) are modelled as environments carrying each call's outcome; the
  embedded functions record the externally visible calls they perform in a
  trace, exactly in the order the source performs them.
-/

namespace Stairway

/-- JS whitespace stripped by `String.prototype.trim`. -/
def isJsWhitespace (c : Char) : Bool :=
  c = ' ' || c = '\t' || c = '\n' || c = '\r' || c = '\x0b' || c = '\x0c'

/-- Embeds `input.trim()`: whitespace removed from both ends. -/
def jsTrim (s : String) : List Char :=
  (((s.toList.dropWhile isJsWhitespace).reverse.dropWhile isJsWhitespace).reverse)

/-- Embeds sanitizeFileName (modelGenerator.ts lines 25-28):
`input.trim().replace(/[^a-zA-Z0-9]/g, '_').substring(0, 20)` —
every non-alphanumeric character is replaced by an underscore,
then the result is truncated to 20 characters. -/
def sanitizeFileName (input : String) : String :=
  String.mk (((jsTrim input).map fun c => if c.isAlphanum then c else '_').take 20)

/-- The base64 alphabet used by Node's `Buffer.toString("base64")`. -/
def base64Table : List Char :=
  "ABCDEFGHIJKLMNOPQRSTUVWXYZabcdefghijklmnopqrstuvwxyz0123456789+/".toList

def b64Char (n : Nat) : Char := base64Table.getD n 'A'

/-- Embeds Node's `Buffer.toString("base64")` (used at modelGenerator.ts
line 133): standard base64 with `=` padding over the file's bytes. -/
def base64Encode : List Nat → String
  | b0 :: b1 :: b2 :: rest =>
      String.mk [b64Char (b0 / 4 % 64), b64Char (b0 % 4 * 16 + b1 / 16),
                 b64Char (b1 % 16 * 4 + b2 / 64), b64Char (b2 % 64)]
        ++ base64Encode rest
  | [b0, b1] =>
      String.mk [b64Char (b0 / 4 % 64), b64Char (b0 % 4 * 16 + b1 / 16),
                 b64Char (b1 % 16 * 4), '=']
  | [b0] =>
      String.mk [b64Char (b0 / 4 % 64), b64Char (b0 % 4 * 16), '=', '=']
  | [] => ""

/-- Outcome of the GitHub contents lookup performed by getFileSha:
the remote file is absent (HTTP 404), present with a sha, or the
request failed with another error. -/
inductive ShaLookup
  | notFound
  | found (sha : String)
  | failed (msg : String)
deriving DecidableEq

/-- Embeds getFileSha (modelGenerator.ts lines 111-128): a 404 is not an
error and yields null; a present file yields `response.data.sha || null`
(so a missing/empty sha field also becomes null); any other failure is
re-thrown. -/
def getFileSha : ShaLookup → Except String (Option String)
  | ShaLookup.notFound => Except.ok none
  | ShaLookup.found sha => Except.ok (if sha = "" then none else some sha)
  | ShaLookup.failed m => Except.error m

/-- The JSON body PUT to the GitHub contents API
(modelGenerator.ts lines 136-147). `sha = none` means the field is
absent from the payload (create); `some s` means it is present (update). -/
structure UploadPayload where
  message : String
  content : String
  branch : String
  sha : Option String
deriving DecidableEq

/-- Payload construction (modelGenerator.ts lines 136-147): fixed message
and branch, base64 content, and the sha attached only when getFileSha
returned one (`if (sha) payload.sha = sha`). -/
def mkUploadPayload (content : String) (sha : Option String) : UploadPayload :=
  { message := "Update Model", content := content, branch := "main", sha := sha }

/-- Environment for uploadToGitHub: the sha lookup outcome and the
outcome of the PUT request itself. -/
structure UploadEnv where
  shaLookup : ShaLookup
  putResult : Except String Unit

/-- Externally visible calls of the stop pipeline and the generation
chain, in source order. -/
inductive Action
  | micStop
  | convertCall
  | transcribeCall
  | optimizeCall
  | imageApiCall
  | writeFile (name : String)
  | modelApiCall
  | renameFile (src dst : String)
  | uploadCall
  | notifyCall (url : String)
deriving DecidableEq

/-- Embeds uploadToGitHub (modelGenerator.ts lines 131-165): reads the file,
base64-encodes it, looks up the prior sha (a thrown lookup error aborts
before any PUT), builds the payload and PUTs it; a PUT failure is
re-thrown. Returns the overall outcome, the payload actually sent
(none when no PUT happened), and the trace. -/
def uploadToGitHub (fileBytes : List Nat) (env : UploadEnv) :
    Except String Unit × Option UploadPayload × List Action :=
  let content := base64Encode fileBytes
  match getFileSha env.shaLookup with
  | Except.error m => (Except.error m, none, [])
  | Except.ok shaOpt =>
      let payload := mkUploadPayload content shaOpt
      (env.putResult, some payload, [Action.uploadCall])

/-- Environment for the generation chain: outcomes of the prompt
optimisation, image generation and 3D generation API calls, the bytes of
the produced model file, and the publish environment. -/
structure GenEnv where
  optimizeResult : Except String String
  imageResult : Except String Unit
  modelResult : Except String Unit
  modelBytes : List Nat
  uploadEnv : UploadEnv

/-- Embeds generateImage (modelGenerator.ts lines 69-108): first optimizes
the prompt (a failure is re-thrown before any image API call), then calls
the image API; on success writes `gen_<sanitized>.png` (sanitized from the
original prompt, line 94) and returns that path. -/
def generateImage (prompt : String) (env : GenEnv) :
    Except String String × List Action :=
  match env.optimizeResult with
  | Except.error e => (Except.error e, [Action.optimizeCall])
  | Except.ok _ =>
      match env.imageResult with
      | Except.error e => (Except.error e, [Action.optimizeCall, Action.imageApiCall])
      | Except.ok _ =>
          let name := "gen_" ++ sanitizeFileName prompt ++ ".png"
          (Except.ok name,
           [Action.optimizeCall, Action.imageApiCall, Action.writeFile name])

/-- Embeds generate3DModel (modelGenerator.ts lines 168-209): generates the
input image (failure re-thrown), calls the 3D API, writes
`gen_<sanitized>.glb`, immediately renames it to `generated_model.glb`
(line 194), uploads that file to GitHub (failure re-thrown), and returns
the constant string `"generated_model.glb"` (line 201). -/
def generate3DModel (prompt : String) (env : GenEnv) :
    Except String String × List Action :=
  match generateImage prompt env with
  | (Except.error e, as) => (Except.error e, as)
  | (Except.ok _, as) =>
      match env.modelResult with
      | Except.error e => (Except.error e, as ++ [Action.modelApiCall])
      | Except.ok _ =>
          let glbName := "gen_" ++ sanitizeFileName prompt ++ ".glb"
          let as2 := as ++ [Action.modelApiCall, Action.writeFile glbName,
                            Action.renameFile glbName "generated_model.glb"]
          match uploadToGitHub env.modelBytes env.uploadEnv with
          | (Except.error e, _, asU) => (Except.error e, as2 ++ asU)
          | (Except.ok _, _, asU) => (Except.ok "generated_model.glb", as2 ++ asU)

/-- The mutable recording state shared by startRecording/stopRecording
(index.ts lines 12-13 and 31-32; app.ts lines 55-58). -/
structure RecState where
  isRecording : Bool
  fileStreamFinished : Bool
  wavFilePath : String
  tempWavPath : String
deriving DecidableEq

/-- The state produced by a successful start (index.ts lines 41-51):
the finished flag is reset, timestamp-unique file paths are installed,
and the recording flag is set. -/
def startedState (t : Nat) : RecState :=
  { isRecording := true, fileStreamFinished := false,
    wavFilePath := "temp_" ++ toString t ++ ".wav",
    tempWavPath := "temp_converted_" ++ toString t ++ ".wav" }

/-- Embeds the synchronous effect of startRecording (index.ts lines 35-51,
app.ts lines 61-90): if the recording flag is already set the promise is
rejected with `'Already recording'` before any state change; otherwise the
session state is replaced by a fresh started state. -/
def startRecordingSync (s : RecState) (t : Nat) : Except String RecState :=
  if s.isRecording then Except.error "Already recording"
  else Except.ok (startedState t)

/-- Runs a sequence of start commands (timestamps) with no intervening
stop, collecting each command's outcome; a rejected start leaves the
state unchanged. -/
def runStarts : RecState → List Nat → RecState × List (Except String Unit)
  | s, [] => (s, [])
  | s, t :: ts =>
      match startRecordingSync s t with
      | Except.ok s2 =>
          let r := runStarts s2 ts
          (r.1, Except.ok () :: r.2)
      | Except.error e =>
          let r := runStarts s ts
          (r.1, Except.error e :: r.2)

/-- Events that can settle the promise returned by startRecording
(index.ts lines 53-68): a mic-stream error, a write error on the output
file stream, or the output file stream's finish event (emitted only once
capture has stopped and the file is fully written). -/
inductive MicEvent
  | micErr (e : String)
  | writeErr (e : String)
  | fileFinish
deriving DecidableEq

/-- A promise settles on the first resolve/reject: the first event among
error/finish decides the outcome; with no event the promise is pending. -/
def settleEvents : List MicEvent → Option (Except String Unit)
  | [] => none
  | MicEvent.fileFinish :: _ => some (Except.ok ())
  | MicEvent.micErr e :: _ => some (Except.error e)
  | MicEvent.writeErr e :: _ => some (Except.error e)

/-- Settlement of the promise returned by startRecording: immediate
rejection when already recording (line 37), otherwise decided by the
first stream event; `resolve()` is called only inside the finish
handler (lines 59-63). -/
def startPromise (isRec : Bool) (events : List MicEvent) :
    Option (Except String Unit) :=
  if isRec then some (Except.error "Already recording")
  else settleEvents events

structure HttpResponse where
  status : Nat
  body : String
deriving DecidableEq

/-- Embeds the POST /start route (index.ts lines 153-159): the response is
sent when startRecording's promise settles — 200 on resolve, 500 with the
error detail on reject; `none` while the promise is still pending. -/
def postStart (isRec : Bool) (events : List MicEvent) : Option HttpResponse :=
  match startPromise isRec events with
  | none => none
  | some (Except.ok _) => some { status := 200, body := "Recording started" }
  | some (Except.error e) =>
      some { status := 500, body := "Error starting recording: " ++ e }

/-- Environment for stopRecording: does the raw wav file exist with
size > 0, the ffmpeg conversion outcome, does the converted file exist
with size > 0, the transcription outcome, and the generation chain's
environment. -/
structure StopEnv where
  rawFileOk : Bool
  convResult : Except String Unit
  convFileOk : Bool
  transcribeResult : Except String String
  genEnv : GenEnv

/-- Helper for basename: keeps the characters after the last slash. -/
def basenameAux : List Char → List Char → List Char
  | [], acc => acc.reverse
  | '/' :: rest, _ => basenameAux rest []
  | c :: rest, acc => basenameAux rest (c :: acc)

/-- Embeds `path.basename`: the last `/`-separated component. -/
def basename (p : String) : String := String.mk (basenameAux p.toList [])

/-- Embeds transcribeAudio (app.ts lines 168-180; index.ts lines 135-148
is identical except that it neither awaits generate3DModel nor notifies):
the whisper call and the chained generation are wrapped in a try/catch
that only logs, so the function always resolves; on full success it
notifies clients with `/models/<basename of the model path>`. -/
def transcribeAudio (env : StopEnv) : List Action :=
  match env.transcribeResult with
  | Except.error _ => [Action.transcribeCall]
  | Except.ok text =>
      match generate3DModel text env.genEnv with
      | (Except.error _, as) => Action.transcribeCall :: as
      | (Except.ok modelPath, as) =>
          Action.transcribeCall ::
            (as ++ [Action.notifyCall ("/models/" ++ basename modelPath)])

/-- Embeds stopRecording (index.ts lines 73-112, app.ts lines 111-145):
a no-op returning immediately when not recording (line 74); otherwise it
stops the mic, clears the flag, waits for the flush, and runs
convert → transcribe guarded by existence/size checks — every failure
inside is caught and only logged (lines 104, 107, 110), so the returned
promise always resolves. Returns the new state, the trace, and the
promise outcome. -/
def stopRecording (s : RecState) (env : StopEnv) :
    RecState × List Action × Except String Unit :=
  if s.isRecording then
    let s2 := { s with isRecording := false }
    if env.rawFileOk then
      match env.convResult with
      | Except.error _ => (s2, [Action.micStop, Action.convertCall], Except.ok ())
      | Except.ok _ =>
          if env.convFileOk then
            (s2, Action.micStop :: Action.convertCall :: transcribeAudio env,
             Except.ok ())
          else (s2, [Action.micStop, Action.convertCall], Except.ok ())
    else (s2, [Action.micStop], Except.ok ())
  else (s, [], Except.ok ())

/-- Embeds the POST /stop route (index.ts lines 161-167): 200
"Recording stopped" when stopRecording resolves, 500 with the error
detail when it rejects. -/
def postStop (s : RecState) (env : StopEnv) : HttpResponse :=
  match (stopRecording s env).2.2 with
  | Except.ok _ => { status := 200, body := "Recording stopped" }
  | Except.error e => { status := 500, body := "Error stopping recording: " ++ e }

/-- Synchronous actions performed by a start command, across variants. -/
inductive StartAction
  | resetFinishedFlag
  | setPaths
  | createStream
  | pipeStream
  | micStartA
  | setRecordingFlag
  | attachDataListener
  | registerTimeout (ms : Nat)
deriving DecidableEq

/-- The synchronous actions of the server variant's startRecording
(index.ts lines 35-51): reset the finished flag, install fresh paths,
open the sink, pipe the mic stream into it, start the mic, set the
recording flag — and nothing else: no timer of any kind is registered. -/
def startActionsServer (s : RecState) : List StartAction :=
  if s.isRecording then []
  else [StartAction.resetFinishedFlag, StartAction.setPaths,
        StartAction.createStream, StartAction.pipeStream,
        StartAction.micStartA, StartAction.setRecordingFlag]

def registersTimeout (l : List StartAction) : Bool :=
  l.any fun a =>
    match a with
    | StartAction.registerTimeout _ => true
    | _ => false

/-- conversion_working.ts line 7. -/
def durationInSeconds : Nat := 10

inductive TimerCallback
  | stopCb
deriving DecidableEq

/-- The actions of conversion_working.ts's startRecording (lines 35-45):
start the mic, attach the data listener, and register
`setTimeout(stopRecording, durationInSeconds * 1000)`. -/
def startActionsCw : List StartAction :=
  [StartAction.micStartA, StartAction.attachDataListener,
   StartAction.registerTimeout (durationInSeconds * 1000)]

/-- The timer registered by conversion_working.ts's startRecording: fires
after 10 000 ms and invokes stopRecording. -/
def cwStartTimer : Option (Nat × TimerCallback) :=
  some (durationInSeconds * 1000, TimerCallback.stopCb)

/-- Actions of the conversion_working.ts stop chain. -/
inductive CwAction
  | micStopC
  | writeRawFile
  | soxConvert
  | lameEncode
  | transcribeC
deriving DecidableEq

/-- Environment for conversion_working.ts's stop chain: is the combined
raw buffer non-empty, and the exit codes of sox and lame. -/
structure CwEnv where
  rawNonEmpty : Bool
  soxExitCode : Nat
  lameExitCode : Nat

/-- Embeds conversion_working.ts's stopRecording (lines 48-129): stop the
mic, write the raw buffer to disk, then — only if the buffer is
non-empty — run sox; on sox exit 0 run lame; on lame exit 0 transcribe. -/
def cwStopRecording (env : CwEnv) : List CwAction :=
  if env.rawNonEmpty then
    if env.soxExitCode = 0 then
      if env.lameExitCode = 0 then
        [CwAction.micStopC, CwAction.writeRawFile, CwAction.soxConvert,
         CwAction.lameEncode, CwAction.transcribeC]
      else
        [CwAction.micStopC, CwAction.writeRawFile, CwAction.soxConvert,
         CwAction.lameEncode]
    else [CwAction.micStopC, CwAction.writeRawFile, CwAction.soxConvert]
  else [CwAction.micStopC, CwAction.writeRawFile]

/-- Dispatch of the registered timer callback: the timeout invokes the
very same stopRecording chain (conversion_working.ts line 44). -/
def fireTimer : TimerCallback → CwEnv → List CwAction
  | TimerCallback.stopCb, env => cwStopRecording env

def exceptOk : Except String Unit → Bool
  | Except.ok _ => true
  | Except.error _ => false

/-! Concrete fixtures used by witnesses and counterexamples. -/

/-- The initial idle state (index.ts lines 12-13, 31-32). -/
def idleState : RecState :=
  { isRecording := false, fileStreamFinished := false,
    wavFilePath := "temp.wav", tempWavPath := "temp_converted.wav" }

/-- A state in which a recording is in progress. -/
def sRec : RecState :=
  { isRecording := true, fileStreamFinished := true,
    wavFilePath := "temp_1.wav", tempWavPath := "temp_converted_1.wav" }

/-- A generation environment in which every external call succeeds and the
remote store holds no prior version. -/
def genOk : GenEnv :=
  { optimizeResult := Except.ok "optimized prompt",
    imageResult := Except.ok (),
    modelResult := Except.ok (),
    modelBytes := [103, 108, 98],
    uploadEnv := { shaLookup := ShaLookup.notFound, putResult := Except.ok () } }

/-- A generation environment in which every stage call fails. -/
def gAllFail : GenEnv :=
  { optimizeResult := Except.error "x",
    imageResult := Except.error "x",
    modelResult := Except.error "x",
    modelBytes := [],
    uploadEnv := { shaLookup := ShaLookup.failed "x", putResult := Except.error "x" } }

/-- A stop environment in which the raw capture file is missing or empty. -/
def envNoRaw : StopEnv :=
  { rawFileOk := false, convResult := Except.ok (), convFileOk := true,
    transcribeResult := Except.ok "hello", genEnv := genOk }

/-- A stop environment in which the ffmpeg conversion fails. -/
def envConvFail : StopEnv :=
  { rawFileOk := true, convResult := Except.error "ffmpeg failed",
    convFileOk := false, transcribeResult := Except.ok "hello", genEnv := genOk }

/-- A stop environment in which the transcription call fails. -/
def envTFail : StopEnv :=
  { rawFileOk := true, convResult := Except.ok (), convFileOk := true,
    transcribeResult := Except.error "x", genEnv := gAllFail }

/-! Claim theorems. -/

/-- Claim C4, as stated, is false on the code: sanitizeFileName replaces
each non-alphanumeric character with an underscore rather than removing
it, so the stem for "a friendly squirrel!!!" is "a_friendly_squirrel_",
which is not made of [A-Za-z0-9] characters only. -/
theorem sanitize_not_alphanum_only :
    (sanitizeFileName "a friendly squirrel!!!" = "a_friendly_squirrel_")
    ∧ ((sanitizeFileName "a friendly squirrel!!!").toList.all Char.isAlphanum
        = false) := by
  constructor
  · rfl
  · decide

/-- Claim C4 (amended): for every input prompt the sanitized stem contains
only characters in [A-Za-z0-9_] — each non-alphanumeric character is
replaced by an underscore, not removed — and has length at most 20. -/
theorem sanitize_charset_and_length (input : String) :
    ((sanitizeFileName input).toList.all fun c => c.isAlphanum || c == '_')
    ∧ (sanitizeFileName input).length ≤ 20 := by
  constructor
  · have h : (sanitizeFileName input).toList
        = ((jsTrim input).map fun c => if c.isAlphanum then c else '_').take 20 := rfl
    rw [h, List.all_eq_true]
    intro c hc
    have hc2 : c ∈ (jsTrim input).map fun c => if c.isAlphanum then c else '_' :=
      List.mem_of_mem_take hc
    rcases List.mem_map.mp hc2 with ⟨c0, _, hmap⟩
    by_cases ha : c0.isAlphanum
    · simp [← hmap, ha]
    · simp [← hmap, ha]
  · have h : (sanitizeFileName input).length
        = (((jsTrim input).map fun c => if c.isAlphanum then c else '_').take 20).length := rfl
    rw [h, List.length_take]
    exact Nat.min_le_left _ _

/-- Claim C5: the publish step treats a 404 as "create new", not an error;
with no prior remote version the PUT payload omits the sha field, with a
prior version it carries exactly that sha, and in either case the content
field is the base64 encoding of the file's bytes. -/
theorem upload_sha_handling (bytes : List Nat) (env : UploadEnv)
    (sha : String) (p : UploadPayload) :
    (getFileSha ShaLookup.notFound = Except.ok none)
    ∧ (env.shaLookup = ShaLookup.notFound →
        (uploadToGitHub bytes env).2.1 = some p →
        p.sha = none ∧ p.content = base64Encode bytes)
    ∧ (env.shaLookup = ShaLookup.found sha → sha ≠ "" →
        (uploadToGitHub bytes env).2.1 = some p →
        p.sha = some sha ∧ p.content = base64Encode bytes) := by
  refine ⟨rfl, ?_, ?_⟩
  · intro h hp
    rw [uploadToGitHub, h] at hp
    simp [getFileSha, mkUploadPayload] at hp
    cases hp
    exact ⟨rfl, rfl⟩
  · intro h hne hp
    rw [uploadToGitHub, h] at hp
    simp [getFileSha, hne, mkUploadPayload] at hp
    cases hp
    exact ⟨rfl, rfl⟩

/-- Witness for C5 at concrete inputs: bytes [104, 105] with a 404 lookup
give a payload with no sha, and with prior sha "abc123" give that sha. -/
theorem upload_sha_handling_witness :
    ((mkUploadPayload (base64Encode [104, 105]) none).sha = none
      ∧ (mkUploadPayload (base64Encode [104, 105]) none).content
          = base64Encode [104, 105])
    ∧ ((mkUploadPayload (base64Encode [104, 105]) (some "abc123")).sha = some "abc123"
      ∧ (mkUploadPayload (base64Encode [104, 105]) (some "abc123")).content
          = base64Encode [104, 105]) := by
  constructor
  · exact (upload_sha_handling [104, 105]
      { shaLookup := ShaLookup.notFound, putResult := Except.ok () } "abc123"
      (mkUploadPayload (base64Encode [104, 105]) none)).2.1 rfl rfl
  · exact (upload_sha_handling [104, 105]
      { shaLookup := ShaLookup.found "abc123", putResult := Except.ok () } "abc123"
      (mkUploadPayload (base64Encode [104, 105]) (some "abc123"))).2.2 rfl
      (by decide) rfl

/-- Claim C7: a stop command issued while no recording is in progress is a
no-op — it resolves without error, performs no action at all, and leaves
the recording state unchanged. -/
theorem stop_while_idle_noop (s : RecState) (env : StopEnv)
    (h : s.isRecording = false) :
    stopRecording s env = (s, [], Except.ok ()) := by
  simp [stopRecording, h]

/-- Witness for C7: a stop on the initial idle state is a no-op. -/
theorem stop_while_idle_noop_witness :
    stopRecording idleState envNoRaw = (idleState, [], Except.ok ()) :=
  stop_while_idle_noop idleState envNoRaw rfl

/-- Helper: while the recording flag is set, every further start is
rejected with "Already recording" and the state never changes. -/
theorem runStarts_while_recording (s : RecState) (ts : List Nat)
    (h : s.isRecording = true) :
    runStarts s ts = (s, ts.map fun _ => Except.error "Already recording") := by
  induction ts with
  | nil => simp [runStarts]
  | cons t ts ih => simp [runStarts, startRecordingSync, h, ih]

/-- Claim C1: in any sequence of start commands with no intervening stop,
issued from a non-recording state, only the first start succeeds; every
subsequent start is rejected with the AlreadyRecording error and changes
nothing, and the final state still has the single recording flag set, so
at most one capture session is ever recording at a time. -/
theorem start_only_first_succeeds (s : RecState) (t : Nat) (ts : List Nat)
    (h : s.isRecording = false) :
    (runStarts s (t :: ts)).2
      = Except.ok () :: (ts.map fun _ => Except.error "Already recording")
    ∧ (runStarts s (t :: ts)).1 = startedState t := by
  have h1 : startRecordingSync s t = Except.ok (startedState t) := by
    simp [startRecordingSync, h]
  have h2 := runStarts_while_recording (startedState t) ts rfl
  constructor
  · simp [runStarts, h1, h2]
  · simp [runStarts, h1, h2]

/-- Witness for C1: from the initial idle state, the start sequence with
timestamps 1, 2, 3 yields one success followed by two AlreadyRecording
rejections. -/
theorem start_only_first_succeeds_witness :
    (runStarts idleState [1, 2, 3]).2
      = [Except.ok (), Except.error "Already recording",
         Except.error "Already recording"]
    ∧ (runStarts idleState [1, 2, 3]).1 = startedState 1 := by
  have h := start_only_first_succeeds idleState 1 [2, 3] rfl
  exact ⟨h.1, h.2⟩

/-- Counterexample to claim C2 as stated: with a recording in progress and
the raw capture file missing or empty, stopRecording only logs the
problem — its promise resolves and the POST /stop caller receives 200
"Recording stopped", so no failure is reported to the caller. -/
theorem stop_empty_file_resolves_ok :
    exceptOk (stopRecording sRec envNoRaw).2.2 = true
    ∧ postStop sRec envNoRaw = { status := 200, body := "Recording stopped" } := by
  constructor
  · rfl
  · rfl

/-- Claim C2 (amended): for every stop command issued while recording with
a raw capture file that is missing or empty, the pipeline does not
proceed past normalization — the trace is exactly the mic stop, with no
conversion and no transcription call — but the stop operation resolves
successfully; the failure is only logged, not reported to its caller. -/
theorem stop_empty_file_no_pipeline (s : RecState) (env : StopEnv)
    (h : s.isRecording = true) (h2 : env.rawFileOk = false) :
    (stopRecording s env).2.1 = [Action.micStop]
    ∧ Action.convertCall ∉ (stopRecording s env).2.1
    ∧ Action.transcribeCall ∉ (stopRecording s env).2.1
    ∧ (stopRecording s env).2.2 = Except.ok () := by
  simp [stopRecording, h, h2]

/-- Witness for C2 (amended) at a concrete recording state and an
environment whose raw file is empty. -/
theorem stop_empty_file_no_pipeline_witness :
    (stopRecording sRec envNoRaw).2.1 = [Action.micStop]
    ∧ Action.convertCall ∉ (stopRecording sRec envNoRaw).2.1
    ∧ Action.transcribeCall ∉ (stopRecording sRec envNoRaw).2.1
    ∧ (stopRecording sRec envNoRaw).2.2 = Except.ok () :=
  stop_empty_file_no_pipeline sRec envNoRaw rfl rfl

/-- Helper: stopRecording's promise always resolves — every stage failure
is caught inside stopRecording (index.ts lines 109-111) or inside
transcribeAudio (lines 145-147), which only log. -/
theorem stopRecording_always_resolves (s : RecState) (env : StopEnv) :
    (stopRecording s env).2.2 = Except.ok () := by
  rcases h : s.isRecording <;>
    rcases h2 : env.rawFileOk <;>
      rcases h3 : env.convResult with e | u <;>
        rcases h4 : env.convFileOk <;>
          simp [stopRecording, h, h2, h3, h4]

/-- Counterexample to claim C3 as stated: when the ffmpeg conversion stage
fails, POST /stop still answers 200 "Recording stopped" — not a 500 with
the error detail. -/
theorem post_stop_conv_failure_is_200 :
    postStop sRec envConvFail = { status := 200, body := "Recording stopped" }
    ∧ (postStop sRec envConvFail).status ≠ 500 := by
  constructor
  · rfl
  · decide

/-- Claim C3 (amended): POST /stop answers 200 "Recording stopped" both
when the flush-normalize-transcribe-generate-publish chain succeeds and
when any of its stages fails: every stage failure is caught and logged
inside stopRecording or transcribeAudio, which always resolve, so the
route's 500 branch is unreachable for stage failures and no stage failure
escapes as an unhandled crash of the request handler. -/
theorem post_stop_always_200 (s : RecState) (env : StopEnv) :
    postStop s env = { status := 200, body := "Recording stopped" } := by
  rw [postStop, stopRecording_always_resolves]

/-- Claim C6: the pipeline stages are strictly sequential and a stage
failure aborts all later stages — a transcription failure means no image
and no model API call at all; a prompt-optimization failure means no
image, model or publish call; an image failure means no model or publish
call; a model failure means no publish call. -/
theorem stage_failure_aborts_rest (env : StopEnv) (prompt : String)
    (g : GenEnv) (e : String) :
    (env.transcribeResult = Except.error e →
        Action.imageApiCall ∉ transcribeAudio env
        ∧ Action.modelApiCall ∉ transcribeAudio env
        ∧ Action.uploadCall ∉ transcribeAudio env)
    ∧ (g.optimizeResult = Except.error e →
        Action.imageApiCall ∉ (generate3DModel prompt g).2
        ∧ Action.modelApiCall ∉ (generate3DModel prompt g).2
        ∧ Action.uploadCall ∉ (generate3DModel prompt g).2)
    ∧ (g.imageResult = Except.error e →
        Action.modelApiCall ∉ (generate3DModel prompt g).2
        ∧ Action.uploadCall ∉ (generate3DModel prompt g).2)
    ∧ (g.modelResult = Except.error e →
        Action.uploadCall ∉ (generate3DModel prompt g).2) := by
  refine ⟨?_, ?_, ?_, ?_⟩
  · intro h
    simp [transcribeAudio, h]
  · intro h
    simp [generate3DModel, generateImage, h]
  · intro h
    rcases h1 : g.optimizeResult with e1 | v1 <;>
      simp [generate3DModel, generateImage, h, h1]
  · intro h
    rcases h1 : g.optimizeResult with e1 | v1 <;>
      rcases h2 : g.imageResult with e2 | u2 <;>
        simp [generate3DModel, generateImage, h, h1, h2]

/-- Witness for C6 at a concrete environment where every stage fails. -/
theorem stage_failure_aborts_rest_witness :
    (Action.imageApiCall ∉ transcribeAudio envTFail
      ∧ Action.modelApiCall ∉ transcribeAudio envTFail
      ∧ Action.uploadCall ∉ transcribeAudio envTFail)
    ∧ Action.imageApiCall ∉ (generate3DModel "p" gAllFail).2
    ∧ Action.uploadCall ∉ (generate3DModel "p" gAllFail).2 := by
  have h := stage_failure_aborts_rest envTFail "p" gAllFail "x"
  exact ⟨h.1 rfl, (h.2.1 rfl).1, (h.2.2.2 rfl)⟩

/-- Counterexample to claim C8 as stated: in the express-server variant
(index.ts lines 35-51), a start command issued from the idle state
registers no timeout at all — there is no force-stop timer. -/
theorem server_start_registers_no_timeout :
    registersTimeout (startActionsServer idleState) = false := by
  decide

/-- Claim C8 (amended): only the standalone conversion_working.ts variant
registers a hard timeout at start — 10 seconds (durationInSeconds * 1000
milliseconds), whose callback is exactly the stopRecording chain
(flush, convert, encode, transcribe), the same sequence a stop runs; the
express-server variants' startRecording registers no timeout, so their
sessions are never force-stopped. -/
theorem cw_start_timeout_auto_stop (env : CwEnv) :
    StartAction.registerTimeout (10 * 1000) ∈ startActionsCw
    ∧ cwStartTimer = some (10 * 1000, TimerCallback.stopCb)
    ∧ fireTimer TimerCallback.stopCb env = cwStopRecording env
    ∧ registersTimeout (startActionsServer idleState) = false := by
  refine ⟨by decide, rfl, rfl, by decide⟩

/-- Claim C9: the promise returned by startRecording (started from a
non-recording state) resolves exactly when the first stream event is the
output file stream's finish event — emitted only once the capture file is
fully written — so the 200 "Recording started" response is sent only then,
no response exists while no event has fired, and a mic or write error as
first event rejects the promise, producing the 500 response. -/
theorem start_response_waits_for_finish (events rest : List MicEvent)
    (e : String) :
    (postStart false events = some { status := 200, body := "Recording started" }
      ↔ events.head? = some MicEvent.fileFinish)
    ∧ postStart false [] = none
    ∧ postStart false (MicEvent.micErr e :: rest)
        = some { status := 500, body := "Error starting recording: " ++ e }
    ∧ postStart false (MicEvent.writeErr e :: rest)
        = some { status := 500, body := "Error starting recording: " ++ e } := by
  refine ⟨?_, rfl, rfl, rfl⟩
  cases events with
  | nil => simp [postStart, startPromise, settleEvents]
  | cons ev tl => cases ev <;> simp [postStart, startPromise, settleEvents]

/-- Witness for C9: with the finish event as the only event the response
is 200 "Recording started". -/
theorem start_response_waits_for_finish_witness :
    postStart false [MicEvent.fileFinish]
      = some { status := 200, body := "Recording started" } :=
  (start_response_waits_for_finish [MicEvent.fileFinish] [] "e").1.mpr rfl

/-- Claim C10: whenever generate3DModel succeeds, the prompt-derived
file `gen_<sanitized>.glb` is renamed to the constant "generated_model.glb"
and that constant string is returned, so the published local artifact path
and the modelReady notification URL `/models/generated_model.glb` are the
same for every prompt — each successful run overwrites the previous model
file. -/
theorem model_name_constant (prompt : String) (env : GenEnv)
    (name : String) (as : List Action)
    (h : generate3DModel prompt env = (Except.ok name, as)) :
    name = "generated_model.glb"
    ∧ Action.renameFile ("gen_" ++ sanitizeFileName prompt ++ ".glb")
        "generated_model.glb" ∈ as
    ∧ "/models/" ++ basename name = "/models/generated_model.glb" := by
  rcases hg : generateImage prompt env with ⟨r, as1⟩
  rcases r with e | img
  · rw [generate3DModel, hg] at h
    simp at h
  · rcases hm : env.modelResult with e | u
    · rw [generate3DModel, hg, hm] at h
      simp at h
    · rcases hu : uploadToGitHub env.modelBytes env.uploadEnv with ⟨ru, p, asU⟩
      rcases ru with e | u2
      · rw [generate3DModel, hg, hm, hu] at h
        simp at h
      · rw [generate3DModel, hg, hm, hu] at h
        simp at h
        refine ⟨h.1.symm, ?_, ?_⟩
        · rw [← h.2]
          simp
        · rw [h.1.symm]
          rfl

/-- Witness for C10: a fully successful run on the prompt "cat" returns
"generated_model.glb" with the rename in its trace. -/
theorem model_name_constant_witness :
    "generated_model.glb" = "generated_model.glb"
    ∧ Action.renameFile ("gen_" ++ sanitizeFileName "cat" ++ ".glb")
        "generated_model.glb" ∈ (generate3DModel "cat" genOk).2
    ∧ "/models/" ++ basename "generated_model.glb"
        = "/models/generated_model.glb" :=
  model_name_constant "cat" genOk "generated_model.glb"
    (generate3DModel "cat" genOk).2 rfl

end Stairway
